import Mathlib

/-!
Shallow embedding of `condition_variable.rs` (`src/lib.rs`): a value-carrying
condition variable `ConditionVariable<T>` holding a `(Mutex<T>, Condvar)` pair.

Modelling conventions:
* The mutex is a `LockState T`: a poison flag plus the protected value.
* Sleeping on the condition variable is modelled by an environment trace: each
  wake event records the state of the mutex observed when the sleeping thread
  reacquires the lock (`LockState T` for untimed waits; for timed waits a
  `TimedWake T` also records the two monotonic-clock readings taken by the code
  around the sleep, in nanoseconds as returned by `time::precise_time_ns`).
* Results are `Outcome α`:
  `ok` / `err` mirror `Ok` / `Err(PoisonError)` of the Rust `Result`;
  `panicked` models a `.unwrap()` call hitting a poisoned lock (the thread
  panics instead of returning); `blocked` means the finite wake trace was
  exhausted while the thread was still waiting (it has not returned).
-/

set_option autoImplicit false

namespace CondVar

/-- Rust `enum Notify { One, All }`. -/
inductive Notify where
  | one
  | all
deriving DecidableEq, Repr

/-- The mutex protecting the value: poison flag plus current value. -/
structure LockState (T : Type) where
  poisoned : Bool
  value : T
deriving DecidableEq, Repr

/-- One wake of a timed wait: the mutex state observed at reacquisition and the
two readings of `time::precise_time_ns()` taken before sleeping and after
waking (monotonic clock, so `afterNs ≥ beforeNs`). -/
structure TimedWake (T : Type) where
  st : LockState T
  beforeNs : Nat
  afterNs : Nat
deriving DecidableEq, Repr

/-- Result of running an operation against a finite environment trace. -/
inductive Outcome (α : Type) where
  | ok (a : α)
  | err
  | panicked
  | blocked
deriving DecidableEq, Repr

/-- Trace events of `set`, in the order the Rust statements execute them (the
`MutexGuard` is dropped at the end of the function body, after the `match` on
`notify`). -/
inductive Event where
  | acquire
  | store
  | signal (n : Notify)
  | release
deriving DecidableEq, Repr

/-- Rust `<[T]>::contains`: `expected.iter().any(|x| x == actual)`. -/
def slice_contains {T : Type} [DecidableEq T] (expected : List T) (actual : T) : Bool :=
  expected.any (fun x => decide (x = actual))

/-- The `as i64` cast applied to a `u64` value. -/
def u64toI64 (n : Nat) : Int :=
  if n % 2 ^ 64 < 2 ^ 63 then ((n % 2 ^ 64 : Nat) : Int)
  else ((n % 2 ^ 64 : Nat) : Int) - 2 ^ 64

/-- `ConditionVariable::new(value)`: fresh unpoisoned mutex holding `value`. -/
def new {T : Type} (value : T) : LockState T :=
  ⟨false, value⟩

/-- `set(&self, value, notify)`: `lock.lock().unwrap()` (panics if poisoned),
`*data = value`, then `notify_one` / `notify_all` while the guard is still
held, and only then the guard is dropped. Returns the new mutex state and the
ordered event trace. -/
def set {T : Type} (st : LockState T) (value : T) (notify : Notify) :
    Outcome (LockState T × List Event) :=
  if st.poisoned then .panicked
  else .ok (⟨false, value⟩, [Event.acquire, Event.store, Event.signal notify, Event.release])

/-- Modelled from the spec: the behaviour §4.1 ascribes to `set` — it fails by
propagating the lock-poisoning fault (rather than panicking), and it releases
the lock before signalling waiters. Stated only to compare with `set` above. -/
def set_spec {T : Type} (st : LockState T) (value : T) (notify : Notify) :
    Outcome (LockState T × List Event) :=
  if st.poisoned then .err
  else .ok (⟨false, value⟩, [Event.acquire, Event.store, Event.release, Event.signal notify])

/-- `get(&self)`: `try!(lock.lock())` then `Ok(data.clone())`. The receiver is
a shared borrow; the stored value is only cloned, never written. -/
def get {T : Type} (st : LockState T) : Outcome T :=
  if st.poisoned then .err
  else .ok st.value

/-- The `while !cond_func(&*actual) { actual = try!(cvar.wait(actual)); }` loop
of `wait_for_condition`, run against a finite trace of wake events. -/
def waitLoop {T : Type} (cond_func : T → Bool) : T → List (LockState T) → Outcome Unit
  | actual, [] =>
    if cond_func actual then .ok () else .blocked
  | actual, w :: rest =>
    if cond_func actual then .ok ()
    else if w.poisoned then .err
    else waitLoop cond_func w.value rest

/-- `wait_for_condition(&self, cond_func)`: `try!(lock.lock())` (propagates the
poison fault), then the check-then-sleep loop. -/
def wait_for_condition {T : Type} (cond_func : T → Bool) (st : LockState T)
    (wakes : List (LockState T)) : Outcome Unit :=
  if st.poisoned then .err
  else waitLoop cond_func st.value wakes

/-- `wait_for_in(&self, expected)`: delegates to `wait_for_condition` with the
membership predicate `|actual| expected.contains(actual)`. -/
def wait_for_in {T : Type} [DecidableEq T] (expected : List T) (st : LockState T)
    (wakes : List (LockState T)) : Outcome Unit :=
  wait_for_condition (fun actual => slice_contains expected actual) st wakes

/-- `wait_for(&self, expected)`: delegates to `wait_for_in(&[expected])`. -/
def wait_for {T : Type} [DecidableEq T] (expected : T) (st : LockState T)
    (wakes : List (LockState T)) : Outcome Unit :=
  wait_for_in [expected] st wakes

/-- The budget loop of `wait_for_condition_ms`: while `!cond_func(&*actual) &&
remaining_ms > 0`, read the clock, `try!(cvar.wait_timeout_ms(..))`, read the
clock again and subtract the measured difference of the two `ns/1000` readings
(cast `as i64`) from `remaining_ms`. -/
def waitMsLoop {T : Type} (cond_func : T → Bool) : T → Int → List (TimedWake T) → Outcome Bool
  | actual, remaining_ms, [] =>
    if cond_func actual = false ∧ remaining_ms > 0 then .blocked
    else .ok (cond_func actual)
  | actual, remaining_ms, w :: rest =>
    if cond_func actual = false ∧ remaining_ms > 0 then
      if w.st.poisoned then .err
      else waitMsLoop cond_func w.st.value
        (remaining_ms - u64toI64 (w.afterNs / 1000 - w.beforeNs / 1000)) rest
    else .ok (cond_func actual)

/-- `wait_for_condition_ms(&self, cond_func, timeout_ms)`:
`lock.lock().unwrap()` (panics if the lock is already poisoned), then the
budget loop with `remaining_ms` initialised to `timeout_ms`, then
`Ok(cond_func(&*actual))`. -/
def wait_for_condition_ms {T : Type} (cond_func : T → Bool) (timeout_ms : Int)
    (st : LockState T) (wakes : List (TimedWake T)) : Outcome Bool :=
  if st.poisoned then .panicked
  else waitMsLoop cond_func st.value timeout_ms wakes

/-- `wait_for_in_ms(&self, expected, timeout_ms)`: delegates to
`wait_for_condition_ms` with the membership predicate. -/
def wait_for_in_ms {T : Type} [DecidableEq T] (expected : List T) (timeout_ms : Int)
    (st : LockState T) (wakes : List (TimedWake T)) : Outcome Bool :=
  wait_for_condition_ms (fun actual => slice_contains expected actual) timeout_ms st wakes

/-- `wait_for_ms(&self, expected, timeout_ms)`: delegates to
`wait_for_in_ms(&[expected], timeout_ms)`. -/
def wait_for_ms {T : Type} [DecidableEq T] (expected : T) (timeout_ms : Int)
    (st : LockState T) (wakes : List (TimedWake T)) : Outcome Bool :=
  wait_for_in_ms [expected] timeout_ms st wakes

/-- Environment event for the single `cvar.wait_timeout_ms` call of `wait_ms`:
whether the mutex was poisoned while the thread slept, and the `bool` the
primitive returns (`false` exactly when the timeout is known to have
elapsed, i.e. `true` means woken by a notification). -/
structure CvWaitResult where
  poisoned : Bool
  notified : Bool
deriving DecidableEq, Repr

/-- `wait_ms(&self, timeout_ms)` on `ConditionVariable<()>`:
`lock.lock().unwrap()` (panics if poisoned), then a single
`cvar.wait_timeout_ms(guard, timeout_ms)` whose `LockResult` — including a
poison fault arising during the sleep — is returned to the caller unchanged. -/
def wait_ms (st : LockState Unit) (w : CvWaitResult) : Outcome Bool :=
  if st.poisoned then .panicked
  else if w.poisoned then .err
  else .ok w.notified

/-! Helper lemmas shared by several claim theorems. -/

/-- If the untimed wait loop returns `Ok(())`, the predicate held on one of the
values the thread observed (the initial value or a wake value). -/
theorem waitLoop_ok_any {T : Type} (cond_func : T → Bool) (v : T)
    (wakes : List (LockState T)) (h : waitLoop cond_func v wakes = .ok ()) :
    (cond_func v || wakes.any (fun w => cond_func w.value)) = true := by
  induction wakes generalizing v with
  | nil =>
    by_cases hc : cond_func v
    · simp [hc]
    · simp [waitLoop, hc] at h
  | cons w rest ih =>
    by_cases hc : cond_func v
    · simp [hc]
    · by_cases hp : w.poisoned
      · simp [waitLoop, hc, hp] at h
      · have := ih w.value (by simpa [waitLoop, hc, hp] using h)
        simp [hc, List.any_cons]
        simpa using this

/-- If the timed wait loop returns `Ok(b)`, then `b` is the predicate evaluated
at one of the observed values (the initial value or some wake value). -/
theorem waitMsLoop_ok_mem {T : Type} (cond_func : T → Bool) (v : T) (r : Int)
    (wakes : List (TimedWake T)) (b : Bool)
    (h : waitMsLoop cond_func v r wakes = .ok b) :
    b ∈ List.map cond_func (v :: wakes.map (fun w => w.st.value)) := by
  induction wakes generalizing v r with
  | nil =>
    by_cases hc : cond_func v = false ∧ r > 0
    · simp [waitMsLoop, hc] at h
    · simp [waitMsLoop, hc] at h
      simp [h]
  | cons w rest ih =>
    by_cases hc : cond_func v = false ∧ r > 0
    · by_cases hp : w.st.poisoned
      · simp [waitMsLoop, hc, hp] at h
      · have := ih w.st.value
          (r - u64toI64 (w.afterNs / 1000 - w.beforeNs / 1000))
          (by simpa [waitMsLoop, hc, hp] using h)
        simp only [List.map_cons, List.mem_cons] at this ⊢
        tauto
    · simp [waitMsLoop, hc] at h
      simp [h]

/-- With a nonpositive budget the timed wait loop exits at once: the loop body
is never entered and the result is the final predicate check. -/
theorem waitMsLoop_nonpos {T : Type} (cond_func : T → Bool) (v : T) (r : Int)
    (wakes : List (TimedWake T)) (h : r ≤ 0) :
    waitMsLoop cond_func v r wakes = .ok (cond_func v) := by
  have hng : ¬(cond_func v = false ∧ r > 0) := fun hh => absurd hh.2 (not_lt.mpr h)
  cases wakes with
  | nil => rw [waitMsLoop, if_neg hng]
  | cons w rest => rw [waitMsLoop, if_neg hng]

/-! Claim theorems. -/

/-- C1: `wait_for_condition` follows the check-then-sleep loop: it fails with
the poison fault at acquisition; otherwise, while the predicate is false on the
current value it sleeps, and upon any wake (spurious or genuine) it either
fails with the poison fault at reacquisition or re-checks the predicate on the
newly observed value; it returns `Ok(())` once the predicate holds, and an
`Ok(())` result means the predicate held on an observed value. -/
theorem C1_wait_for_condition_check_then_sleep {T : Type} (cond_func : T → Bool)
    (v : T) (wakes : List (LockState T)) :
    wait_for_condition cond_func ⟨true, v⟩ wakes = .err
    ∧ wait_for_condition cond_func ⟨false, v⟩ wakes =
        (if cond_func v then .ok ()
         else
           match wakes with
           | [] => .blocked
           | w :: rest =>
             if w.poisoned then .err
             else wait_for_condition cond_func ⟨false, w.value⟩ rest)
    ∧ (wait_for_condition cond_func ⟨false, v⟩ wakes = .ok () →
        (cond_func v || wakes.any (fun w => cond_func w.value)) = true) := by
  refine ⟨by simp [wait_for_condition], ?_, ?_⟩
  · cases wakes <;> simp [wait_for_condition, waitLoop]
  · intro h
    exact waitLoop_ok_any cond_func v wakes (by simpa [wait_for_condition] using h)

/-- Witness for C1 at concrete inputs: a poisoned lock gives the fault, a wake
carrying the matching value resolves the wait, and the observed-value
soundness conclusion holds there. -/
theorem C1_wait_for_condition_check_then_sleep_witness :
    wait_for_condition (fun v => decide (v = 2)) (⟨true, 0⟩ : LockState Nat) [] = .err
    ∧ wait_for_condition (fun v => decide (v = 2)) (⟨false, 0⟩ : LockState Nat)
        [⟨false, 2⟩] = .ok ()
    ∧ (decide ((0 : Nat) = 2) ||
        [(⟨false, 2⟩ : LockState Nat)].any (fun w => decide (w.value = 2))) = true := by
  refine ⟨(C1_wait_for_condition_check_then_sleep (fun v => decide (v = 2)) 0 []).1,
    by decide, ?_⟩
  exact (C1_wait_for_condition_check_then_sleep (fun v => decide (v = 2)) 0
    [⟨false, 2⟩]).2.2 (by decide)

/-- C5: `wait_for(expected)` is definitionally `wait_for_in(&[expected])`, and
`wait_for_in(expected)` is definitionally `wait_for_condition` with the
membership predicate `|v| expected.contains(v)`: same blocking condition, same
result on every state and wake trace. -/
theorem C5_wait_for_delegates {T : Type} [DecidableEq T] (expected : T)
    (l : List T) (st : LockState T) (wakes : List (LockState T)) :
    wait_for expected st wakes = wait_for_in [expected] st wakes
    ∧ wait_for_in l st wakes =
        wait_for_condition (fun actual => slice_contains l actual) st wakes :=
  ⟨rfl, rfl⟩

/-- C7: `get` returns `Ok` of the stored value (a clone; the receiver is a
shared borrow, so the stored value is unchanged) and fails with the poison
fault exactly when the lock is poisoned. -/
theorem C7_get_clone_or_fault {T : Type} (v : T) (st : LockState T) :
    get (⟨false, v⟩ : LockState T) = .ok v
    ∧ get (⟨true, v⟩ : LockState T) = .err
    ∧ (get st = .err ↔ st.poisoned = true) := by
  refine ⟨rfl, rfl, ?_⟩
  cases st with
  | mk p val => cases p <;> simp [get]

/-- C9: with a nonpositive timeout, `wait_for_condition_ms` never sleeps — the
loop guard `remaining > 0` fails initially, no wake event is consumed — and it
immediately returns `Ok` of the predicate on the current value (a timeout of 0
is a non-blocking poll). -/
theorem C9_nonpositive_timeout_is_poll {T : Type} (cond_func : T → Bool) (v : T)
    (timeout_ms : Int) (wakes : List (TimedWake T)) (h : timeout_ms ≤ 0) :
    wait_for_condition_ms cond_func timeout_ms ⟨false, v⟩ wakes = .ok (cond_func v) := by
  have := waitMsLoop_nonpos cond_func v timeout_ms wakes h
  simpa [wait_for_condition_ms] using this

/-- Witness for C9: a zero timeout polls the predicate without consuming the
available wake event. -/
theorem C9_nonpositive_timeout_is_poll_witness :
    wait_for_condition_ms (fun _ => false) 0 (⟨false, 0⟩ : LockState Nat)
      [⟨⟨false, 1⟩, 0, 5000000⟩] = .ok false :=
  C9_nonpositive_timeout_is_poll (fun _ => false) 0 0 [⟨⟨false, 1⟩, 0, 5000000⟩]
    (by decide)

/-- C2: `wait_for_condition_ms` initialises the remaining budget to
`timeout_ms`; the loop runs while the predicate is false and the budget is
positive, subtracting the measured elapsed time of each sleep from the budget;
after the loop exits — whether because the predicate held or the budget was
exhausted (the budget may be negative after a long final sleep) — the result is
`Ok` of one further predicate evaluation. -/
theorem C2_wait_for_condition_ms_budget {T : Type} (cond_func : T → Bool)
    (timeout_ms : Int) (v : T) (r : Int) (wakes : List (TimedWake T)) :
    wait_for_condition_ms cond_func timeout_ms ⟨false, v⟩ wakes =
        waitMsLoop cond_func v timeout_ms wakes
    ∧ waitMsLoop cond_func v r [] =
        (if cond_func v = false ∧ r > 0 then .blocked else .ok (cond_func v))
    ∧ (∀ (w : TimedWake T) (rest : List (TimedWake T)),
        waitMsLoop cond_func v r (w :: rest) =
          (if cond_func v = false ∧ r > 0 then
            (if w.st.poisoned then .err
             else waitMsLoop cond_func w.st.value
               (r - u64toI64 (w.afterNs / 1000 - w.beforeNs / 1000)) rest)
           else .ok (cond_func v)))
    ∧ (r ≤ 0 → waitMsLoop cond_func v r wakes = .ok (cond_func v)) := by
  refine ⟨by simp [wait_for_condition_ms], by rw [waitMsLoop],
    fun w rest => by rw [waitMsLoop], waitMsLoop_nonpos cond_func v r wakes⟩

/-- Witness for C2: with the budget already negative the loop exits at once
and the final predicate check decides the result. -/
theorem C2_wait_for_condition_ms_budget_witness :
    waitMsLoop (fun _ => false) (0 : Nat) (-3) [⟨⟨false, 1⟩, 0, 0⟩] = .ok false :=
  (C2_wait_for_condition_ms_budget (fun _ => false) 0 (0 : Nat) (-3)
    [⟨⟨false, 1⟩, 0, 0⟩]).2.2.2 (by decide)

/-- C3 counterexample: on a poisoned lock `set` panics (its `.unwrap()`) rather
than propagating a lock-poisoning fault, and on a healthy lock its event trace
signals the waiters before releasing the lock, so it differs from the
release-then-signal behaviour the claim describes. -/
theorem C3_set_counterexample :
    set (⟨true, 0⟩ : LockState Nat) 1 Notify.one = .panicked
    ∧ set (⟨false, 0⟩ : LockState Nat) 1 Notify.one ≠
        set_spec (⟨false, 0⟩ : LockState Nat) 1 Notify.one := by
  decide

/-- C3 amended: `set` acquires the exclusive lock — panicking, not returning a
fault, if the lock is poisoned — replaces the stored value with the argument
(the previous value is discarded), signals waiters per the mode (`One` wakes a
single waiter, `All` wakes every waiter) while still holding the lock, and
releases the lock only afterwards; it has no return value. -/
theorem C3_set_amended {T : Type} (st : LockState T) (v : T) (n : Notify) :
    set st v n =
      (if st.poisoned then .panicked
       else .ok (⟨false, v⟩,
         [Event.acquire, Event.store, Event.signal n, Event.release])) := rfl

/-- C4 counterexample: with the lock poisoned, `wait_for_ms` does not return
the lock fault to its caller — the initial `lock.lock().unwrap()` panics
instead. -/
theorem C4_poison_propagation_counterexample :
    wait_for_ms (1 : Nat) 10 ⟨true, 0⟩ [] ≠ Outcome.err
    ∧ wait_for_ms (1 : Nat) 10 ⟨true, 0⟩ [] = .panicked := by
  decide

/-- C4 amended: after the lock is poisoned, `get`, `wait_for`, `wait_for_in`
and `wait_for_condition` return the lock fault to the caller, but `set`,
`wait_for_ms`, `wait_for_in_ms` and `wait_for_condition_ms` panic at
acquisition (their initial `.unwrap()`) instead of returning it; the timed
variants return the fault only for poisoning detected at a reacquisition
inside the wait loop. -/
theorem C4_poison_propagation_amended {T : Type} [DecidableEq T] (v x : T)
    (l : List T) (cond_func : T → Bool) (n : Notify) (t : Int)
    (wakes : List (LockState T)) (tw : List (TimedWake T)) (w : TimedWake T)
    (rest : List (TimedWake T)) :
    get (⟨true, v⟩ : LockState T) = .err
    ∧ wait_for x ⟨true, v⟩ wakes = .err
    ∧ wait_for_in l ⟨true, v⟩ wakes = .err
    ∧ wait_for_condition cond_func ⟨true, v⟩ wakes = .err
    ∧ set (⟨true, v⟩ : LockState T) x n = .panicked
    ∧ wait_for_ms x t ⟨true, v⟩ tw = .panicked
    ∧ wait_for_in_ms l t ⟨true, v⟩ tw = .panicked
    ∧ wait_for_condition_ms cond_func t ⟨true, v⟩ tw = .panicked
    ∧ (cond_func v = false → t > 0 → w.st.poisoned = true →
        wait_for_condition_ms cond_func t ⟨false, v⟩ (w :: rest) = .err) := by
  refine ⟨rfl, rfl, rfl, rfl, rfl, rfl, rfl, rfl, ?_⟩
  intro hc ht hp
  simp [wait_for_condition_ms, waitMsLoop, hc, ht, hp]

/-- Witness for C4 at concrete inputs: poisoning that happens during a sleep of
a timed wait is returned as the fault. -/
theorem C4_poison_propagation_amended_witness :
    wait_for_condition_ms (fun _ => false) 10 (⟨false, 0⟩ : LockState Nat)
      [⟨⟨true, 0⟩, 0, 0⟩] = .err :=
  (C4_poison_propagation_amended 0 0 [] (fun _ => false) Notify.one 10 [] []
    ⟨⟨true, 0⟩, 0, 0⟩ []).2.2.2.2.2.2.2.2 rfl (by decide) rfl

/-- C8 counterexample: `wait_ms` does propagate poison as a typed fault — when
the mutex is poisoned while the thread sleeps, the `LockResult` returned by
`cvar.wait_timeout_ms` is an error value handed back to the caller unchanged. -/
theorem C8_wait_ms_counterexample :
    wait_ms ⟨false, ()⟩ ⟨true, false⟩ = .err := by
  decide

/-- C8 amended: `wait_ms` is a single-shot timed wait — it performs exactly one
timed sleep, never loops on a predicate, and returns the primitive flag saying
whether it was notified or timed out; it panics if the lock is already poisoned
at acquisition, and it does propagate poisoning that occurs during the sleep as
a typed fault. -/
theorem C8_wait_ms_amended (st : LockState Unit) (w : CvWaitResult) :
    wait_ms st w =
      (if st.poisoned then .panicked
       else if w.poisoned then .err
       else .ok w.notified) := rfl

/-- C6: the timed match waits delegate to `wait_for_condition_ms` with the
corresponding predicate — `wait_for_ms` via the singleton slice, whose
membership predicate is exactly equality with `expected`, and `wait_for_in_ms`
via set membership — and whenever the call returns `Ok(b)`, `b` is that
predicate evaluated at one of the observed stored values: `Ok(true)` means the
predicate held at exit, `Ok(false)` that it still failed when the budget ran
out. -/
theorem C6_timed_waits_delegate {T : Type} [DecidableEq T] (expected : T)
    (l : List T) (t : Int) (st : LockState T) (tw : List (TimedWake T))
    (v : T) (b : Bool) :
    wait_for_ms expected t st tw = wait_for_in_ms [expected] t st tw
    ∧ wait_for_in_ms l t st tw =
        wait_for_condition_ms (fun actual => slice_contains l actual) t st tw
    ∧ slice_contains [expected] v = decide (expected = v)
    ∧ (wait_for_in_ms l t ⟨false, v⟩ tw = .ok b →
        b ∈ List.map (fun u => slice_contains l u)
          (v :: tw.map (fun w => w.st.value))) := by
  refine ⟨rfl, rfl, by simp [slice_contains], ?_⟩
  intro h
  exact waitMsLoop_ok_mem _ v t tw b
    (by simpa [wait_for_in_ms, wait_for_condition_ms] using h)

/-- Witness for C6: a run that returns `Ok(true)` did observe a value inside
the expected slice. -/
theorem C6_timed_waits_delegate_witness :
    true ∈ List.map (fun u => slice_contains [1] u) ([1] : List Nat) :=
  (C6_timed_waits_delegate 1 [1] 5 ⟨false, 1⟩ [] 1 true).2.2.2 (by decide)

/-- C10: with an empty expected slice the membership predicate is false on
every value, so the timed `wait_for_in_ms(&[], t)` can never return `Ok(true)`
— an `Ok` exit, absent a fault, carries `false` — and the untimed
`wait_for_in(&[])` can never return `Ok(())`. -/
theorem C10_empty_slice_never_satisfied {T : Type} [DecidableEq T] (t : Int)
    (st : LockState T) (wakes : List (LockState T)) (tw : List (TimedWake T)) :
    wait_for_in_ms ([] : List T) t st tw ≠ .ok true
    ∧ wait_for_in ([] : List T) st wakes ≠ .ok () := by
  obtain ⟨p, v⟩ := st
  constructor
  · intro h
    cases p
    · have h2 : waitMsLoop (fun a => slice_contains ([] : List T) a) v t tw = .ok true := by
        simpa [wait_for_in_ms, wait_for_condition_ms] using h
      have hmem := waitMsLoop_ok_mem _ v t tw true h2
      simp [slice_contains] at hmem
    · simp [wait_for_in_ms, wait_for_condition_ms] at h
  · intro h
    cases p
    · have h2 : waitLoop (fun a => slice_contains ([] : List T) a) v wakes = .ok () := by
        simpa [wait_for_in, wait_for_condition] using h
      have hany := waitLoop_ok_any _ v wakes h2
      simp [slice_contains] at hany
    · simp [wait_for_in, wait_for_condition] at h

/-- Witness for C10: concrete instance of the impossibility of `Ok(true)`. -/
theorem C10_empty_slice_never_satisfied_witness :
    wait_for_in_ms ([] : List Nat) 5 ⟨false, 0⟩ [] ≠ .ok true :=
  (C10_empty_slice_never_satisfied 5 ⟨false, 0⟩ [] []).1

end CondVar
